import Mathlib

/-!
Shallow embedding of the call-expectation engine in `src/mockall/src/lib.rs`.

Modelling conventions:
- A Rust panic is modelled as `Except.error msg` with the panic message, and a
  caller-supplied closure `FnMut(I) -> O` (which may itself panic) is modelled
  as a function `I → Except String O`.
- Rust's static types `I`, `O` are modelled by a universe of type codes
  `Ty` with decidable equality and an interpretation `El : Ty → Type`; a
  `TypeId` in the source corresponds to a code in `Ty`.
- The `Mutex<Rfunc<I, O>>` interior mutability of an `Expectation` is modelled
  by explicit state passing: operations that mutate the strategy return the
  updated registry alongside the result.  Thread interleaving itself is out of
  scope of this sequential embedding.
- The `#[cfg(feature = "nightly")]` / `O: Default` specialization that selects
  which `return_default` runs is modelled by a `DefaultSupport` capability
  value attached to each output type code.
-/

set_option autoImplicit false

namespace Mockall

/-- Panic message of `Rfunc::call_mut` in the `Expired` arm and of the
single-use guard closure built by `return_once`. -/
def exhaustedMsg : String := "Called a method twice that was expected only once"

/-- Message of `.expect(..)` on a failed lookup in `Expectations::called`. -/
def noMatchMsg : String := "No matching expectation found"

/-- Panic message of `return_default` without the `nightly` feature. -/
def stableDefaultMsg : String :=
  "Returning default values requires the \"nightly\" feature"

/-- Panic message of the `nightly` default `return_default` specialization,
for output types that do not implement `std::Default`. -/
def nightlyNoDefaultMsg : String :=
  "Can only return default values for types that impl std::Default"

/-- Capability of the embedding environment to produce a default value of an
output type: models the `cfg_if` stable arm, the `nightly` non-`Default`
specialization, and the `nightly` `O: Default` specialization with its
`O::default()` value. -/
inductive DefaultSupport (O : Type) where
  | stable : DefaultSupport O
  | nightlyNoDefault : DefaultSupport O
  | nightlyDefault : O → DefaultSupport O

/-- Models the statically dispatched `ReturnDefault::return_default` for an
output type with the given capability. -/
def return_default {O : Type} : DefaultSupport O → Except String O
  | .stable => .error stableDefaultMsg
  | .nightlyNoDefault => .error nightlyNoDefaultMsg
  | .nightlyDefault d => .ok d

/-- Models `enum Rfunc<I, O>`: the return strategy of one expectation.
Closures are modelled as `I → Except String O`, where an error models a panic
of the caller-supplied closure. -/
inductive Rfunc (I O : Type) where
  | Default : Rfunc I O
  | Expired : Rfunc I O
  | Mut : (I → Except String O) → Rfunc I O
  | Once : (I → Except String O) → Rfunc I O

/-- Models `Rfunc::call_mut(&mut self, args)`: returns the produced output (or
the panic) together with the state left in `self`.  In the `Once` arm the
source first `mem::replace`s `self` with `Expired` and only then calls the
moved-out closure, so the resulting state is `Expired` regardless of whether
the closure succeeds. -/
def Rfunc.call_mut {I O : Type} (env : DefaultSupport O) :
    Rfunc I O → I → Except String O × Rfunc I O
  | .Default, _ => (return_default env, .Default)
  | .Expired, _ => (.error exhaustedMsg, .Expired)
  | .Mut f, args => (f args, .Mut f)
  | .Once f, args => (f args, .Expired)

/-- Models `struct Expectation<I, O>`; the `Mutex` wrapper is replaced by
explicit state passing. -/
structure Expectation (I O : Type) where
  rfunc : Rfunc I O

/-- Models `Expectation::new(rfunc)`. -/
def Expectation.new {I O : Type} (rfunc : Rfunc I O) : Expectation I O :=
  ⟨rfunc⟩

/-- Models `Expectation::call(&self, i)`: locks the strategy, drives
`call_mut`, and yields the updated slot state. -/
def Expectation.call {I O : Type} (env : DefaultSupport O)
    (e : Expectation I O) (i : I) : Except String O × Expectation I O :=
  let p := e.rfunc.call_mut env i
  (p.1, ⟨p.2⟩)

/-- Models `struct Key(u64)` produced by `Key::new::<I, O>(ident)`, which
hashes the ident string and `TypeId::of::<(I, O)>` with `DefaultHasher`.  The
hasher is std-library code outside this repository; it is deterministic within
a process, and the spec accepts the fixed-width digest's collision probability
as negligible, so the digest is represented by the hashed data itself. -/
structure Key (Ty : Type) where
  ident : String
  tyIn : Ty
  tyOut : Ty
  deriving DecidableEq

/-- Models `Key::new::<I, O>(ident)`. -/
def Key.new {Ty : Type} (tyIn tyOut : Ty) (ident : String) : Key Ty :=
  ⟨ident, tyIn, tyOut⟩

/-- Models `Box<dyn ExpectationT>`: a type-erased expectation slot carrying
the runtime type codes that `downcast_ref::<Expectation<I, O>>` checks. -/
structure BoxedExpectationT (Ty : Type) (El : Ty → Type) where
  tyIn : Ty
  tyOut : Ty
  exp : Expectation (El tyIn) (El tyOut)

/-- Transport an `Expectation` along equalities of type codes: models the
successful `downcast_ref` from the erased slot to the caller-asserted
`Expectation<I, O>`. -/
def castExpectation {Ty : Type} (El : Ty → Type) {a c : Ty} (h1 : a = c)
    {b d : Ty} (h2 : b = d) (e : Expectation (El a) (El b)) :
    Expectation (El c) (El d) :=
  match h1, h2 with
  | rfl, rfl => e

/-- Models `struct Expectations`: the registry.  The `HashMap` is modelled by
its lookup function. -/
structure Expectations (Ty : Type) (El : Ty → Type) where
  store : Key Ty → Option (BoxedExpectationT Ty El)

/-- Models `Expectations::default()`: the empty registry. -/
def Expectations.default (Ty : Type) (El : Ty → Type) : Expectations Ty El :=
  ⟨fun _ => none⟩

/-- Models `Expectations::register::<I, O>(ident, expectation)`:
`HashMap::insert` keyed by `Key::new::<I, O>(ident)`, replacing any prior
entry at that key. -/
def Expectations.register {Ty : Type} [DecidableEq Ty] {El : Ty → Type}
    (s : Expectations Ty El) (tyIn tyOut : Ty) (ident : String)
    (expectation : Expectation (El tyIn) (El tyOut)) : Expectations Ty El :=
  ⟨fun k => if k = Key.new tyIn tyOut ident then
      some ⟨tyIn, tyOut, expectation⟩
    else s.store k⟩

/-- Models `Expectations::called::<I, O>(ident, args)`: computes the key,
looks up the slot (`.expect("No matching expectation found")` on a miss),
downcasts the erased handle (`.unwrap()` panics if the stored codes differ),
and delegates to `Expectation::call`, whose state update is written back to
the slot. -/
def Expectations.called {Ty : Type} [DecidableEq Ty] {El : Ty → Type}
    (env : (t : Ty) → DefaultSupport (El t)) (s : Expectations Ty El)
    (tyIn tyOut : Ty) (ident : String) (args : El tyIn) :
    Except String (El tyOut) × Expectations Ty El :=
  match s.store (Key.new tyIn tyOut ident) with
  | none => (.error noMatchMsg, s)
  | some b =>
    if h : b.tyIn = tyIn ∧ b.tyOut = tyOut then
      let e := castExpectation El h.1 h.2 b.exp
      let p := e.call (env tyOut) args
      (p.1, ⟨fun k => if k = Key.new tyIn tyOut ident then
          some ⟨tyIn, tyOut, p.2⟩
        else s.store k⟩)
    else
      (.error "downcast to the asserted Expectation type failed", s)

/-- Iterates `Expectations::called` over a list of argument values, collecting
the results in order: the harness for N-call properties. -/
def Expectations.calledN {Ty : Type} [DecidableEq Ty] {El : Ty → Type}
    (env : (t : Ty) → DefaultSupport (El t)) (tyIn tyOut : Ty)
    (ident : String) :
    Expectations Ty El → List (El tyIn) →
      List (Except String (El tyOut)) × Expectations Ty El
  | s, [] => ([], s)
  | s, a :: as =>
    let p := s.called env tyIn tyOut ident a
    let q := Expectations.calledN env tyIn tyOut ident p.2 as
    (p.1 :: q.1, q.2)

/-- Models `struct ExpectationBuilder<I, O>`: the in-progress strategy and the
owned ident string.  The `&mut Expectations` borrow is modelled by passing the
registry explicitly at commit time. -/
structure ExpectationBuilder (I O : Type) where
  rfunc : Rfunc I O
  ident : String

/-- Models `ExpectationBuilder::new(e, ident)`: starts with `Rfunc::Default`. -/
def ExpectationBuilder.new {I O : Type} (ident : String) :
    ExpectationBuilder I O :=
  ⟨.Default, ident⟩

/-- Models `ExpectationBuilder::returning(f)`: sets the strategy to
`Rfunc::Mut(f)`, overwriting any prior strategy. -/
def ExpectationBuilder.returning {I O : Type} (b : ExpectationBuilder I O)
    (f : I → Except String O) : ExpectationBuilder I O :=
  { b with rfunc := .Mut f }

/-- Models `ExpectationBuilder::return_once(f)`: sets the strategy to
`Rfunc::Once` of the guard closure built around `f`.  In the source the guard
holds `fopt = Some(f)` and panics with the exhausted message on a second
direct invocation; through `call_mut` the `Once` arm invokes the guard at most
once (on its fresh state, where it runs `f`), so the guarded closure is
observationally `f` and is stored directly. -/
def ExpectationBuilder.return_once {I O : Type} (b : ExpectationBuilder I O)
    (f : I → Except String O) : ExpectationBuilder I O :=
  { b with rfunc := .Once f }

/-- Models `Drop for ExpectationBuilder` (commit): takes the accumulated
strategy out of the builder and registers a fresh `Expectation` holding it
under the key of the builder's ident and type parameters. -/
def ExpectationBuilder.drop {Ty : Type} [DecidableEq Ty] {El : Ty → Type}
    (tyIn tyOut : Ty) (b : ExpectationBuilder (El tyIn) (El tyOut))
    (s : Expectations Ty El) : Expectations Ty El :=
  s.register tyIn tyOut b.ident (Expectation.new b.rfunc)

/-- Models `Expectations::expect::<I, O>(ident)`: begins a registration by
handing out a fresh builder; the registry itself is unchanged until the
builder commits. -/
def Expectations.expect {Ty : Type} {El : Ty → Type}
    (_s : Expectations Ty El) (tyIn tyOut : Ty) (ident : String) :
    ExpectationBuilder (El tyIn) (El tyOut) :=
  ExpectationBuilder.new ident

/-- One configuration call on a builder: `returning` or `return_once`. -/
inductive Config (I O : Type) where
  | returning : (I → Except String O) → Config I O
  | return_once : (I → Except String O) → Config I O

/-- Applies one configuration call to a builder. -/
def applyConfig {I O : Type} (b : ExpectationBuilder I O) :
    Config I O → ExpectationBuilder I O
  | .returning f => b.returning f
  | .return_once f => b.return_once f

/-- Applies a chained sequence of configuration calls to a builder, left to
right. -/
def applyConfigs {I O : Type} (b : ExpectationBuilder I O) :
    List (Config I O) → ExpectationBuilder I O
  | [] => b
  | c :: cs => applyConfigs (applyConfig b c) cs

/-- The strategy a single configuration call installs. -/
def configRfunc {I O : Type} : Config I O → Rfunc I O
  | .returning f => .Mut f
  | .return_once f => .Once f

/-- A small concrete universe of type codes for concrete evaluations. -/
inductive Ty0 where
  | int : Ty0
  | str : Ty0
  deriving DecidableEq

/-- Interpretation of the concrete type codes. -/
def El0 : Ty0 → Type
  | .int => Int
  | .str => String

/-- A concrete capability environment: `Int` has a default value, `String`
(in this environment) has none. -/
def env0 : (t : Ty0) → DefaultSupport (El0 t)
  | .int => .nightlyDefault (0 : Int)
  | .str => .stable

/-- A successful downcast between identical type codes is the identity. -/
@[simp]
theorem castExpectation_refl {Ty : Type} (El : Ty → Type) {a b : Ty}
    (h1 : a = a) (h2 : b = b) (e : Expectation (El a) (El b)) :
    castExpectation El h1 h2 e = e :=
  rfl

/-- Registration is found by a lookup with the same key. -/
@[simp]
theorem register_store_self {Ty : Type} [DecidableEq Ty] {El : Ty → Type}
    (s : Expectations Ty El) (tyIn tyOut : Ty) (ident : String)
    (e : Expectation (El tyIn) (El tyOut)) :
    (s.register tyIn tyOut ident e).store (Key.new tyIn tyOut ident) =
      some ⟨tyIn, tyOut, e⟩ := by
  simp [Expectations.register]

/-- Registration leaves every other key unchanged. -/
theorem register_store_other {Ty : Type} [DecidableEq Ty] {El : Ty → Type}
    (s : Expectations Ty El) (tyIn tyOut : Ty) (ident : String)
    (e : Expectation (El tyIn) (El tyOut)) (k : Key Ty)
    (hk : k ≠ Key.new tyIn tyOut ident) :
    (s.register tyIn tyOut ident e).store k = s.store k := by
  simp [Expectations.register, hk]

/-- Invoking `called` on a freshly registered slot drives that slot's
strategy one step: the result is what `call_mut` produces, and the registry
afterwards holds the successor strategy at the same key. -/
theorem called_register {Ty : Type} [DecidableEq Ty] {El : Ty → Type}
    (env : (t : Ty) → DefaultSupport (El t)) (s : Expectations Ty El)
    (tyIn tyOut : Ty) (ident : String) (r : Rfunc (El tyIn) (El tyOut))
    (a : El tyIn) :
    (s.register tyIn tyOut ident (Expectation.new r)).called env tyIn tyOut
        ident a =
      ((r.call_mut (env tyOut) a).1,
        s.register tyIn tyOut ident
          (Expectation.new (r.call_mut (env tyOut) a).2)) := by
  simp only [Expectations.called, register_store_self, Expectation.call,
    Expectation.new, castExpectation_refl, and_self, dite_true]
  refine Prod.ext rfl ?_
  refine congrArg Expectations.mk (funext fun k => ?_)
  by_cases hk : k = Key.new tyIn tyOut ident
  · simp [Expectations.register, hk]
  · simp [Expectations.register, hk]

/-- A second registration under the same key makes the first unreachable:
the composite registry equals the one with only the second registration. -/
theorem register_twice {Ty : Type} [DecidableEq Ty] {El : Ty → Type}
    (s : Expectations Ty El) (tyIn tyOut : Ty) (ident : String)
    (e1 e2 : Expectation (El tyIn) (El tyOut)) :
    (s.register tyIn tyOut ident e1).register tyIn tyOut ident e2 =
      s.register tyIn tyOut ident e2 := by
  refine congrArg Expectations.mk (funext fun k => ?_)
  by_cases hk : k = Key.new tyIn tyOut ident <;>
    simp [Expectations.register, hk]

/-- Iterated calls against a registered `Mut` slot map the closure over the
arguments and leave the registry fixed. -/
theorem calledN_register_mut {Ty : Type} [DecidableEq Ty] {El : Ty → Type}
    (env : (t : Ty) → DefaultSupport (El t)) (s : Expectations Ty El)
    (tyIn tyOut : Ty) (ident : String) (f : El tyIn → Except String (El tyOut))
    (as : List (El tyIn)) :
    (s.register tyIn tyOut ident
        (Expectation.new (.Mut f))).calledN env tyIn tyOut ident as =
      (as.map f, s.register tyIn tyOut ident (Expectation.new (.Mut f))) := by
  induction as with
  | nil => rfl
  | cons a as ih =>
    simp [Expectations.calledN, called_register, Rfunc.call_mut, ih]

/-- Iterated calls against a registered `Expired` slot all fail with the
exhausted message and leave the registry fixed. -/
theorem calledN_register_expired {Ty : Type} [DecidableEq Ty] {El : Ty → Type}
    (env : (t : Ty) → DefaultSupport (El t)) (s : Expectations Ty El)
    (tyIn tyOut : Ty) (ident : String) (as : List (El tyIn)) :
    (s.register tyIn tyOut ident
        (Expectation.new .Expired)).calledN env tyIn tyOut ident as =
      (as.map fun _ => Except.error exhaustedMsg,
        s.register tyIn tyOut ident (Expectation.new .Expired)) := by
  induction as with
  | nil => rfl
  | cons a as ih =>
    simp [Expectations.calledN, called_register, Rfunc.call_mut, ih]

/-- Applying a chain of configuration calls and then one more is applying the
chain and then the last one. -/
theorem applyConfigs_snoc {I O : Type} (b : ExpectationBuilder I O)
    (cs : List (Config I O)) (c : Config I O) :
    applyConfigs b (cs ++ [c]) = applyConfig (applyConfigs b cs) c := by
  induction cs generalizing b with
  | nil => rfl
  | cons d ds ih => simpa [applyConfigs] using ih (applyConfig b d)

/-- One configuration call installs exactly its strategy. -/
theorem applyConfig_rfunc {I O : Type} (b : ExpectationBuilder I O)
    (c : Config I O) : (applyConfig b c).rfunc = configRfunc c := by
  cases c <;> rfl

/-- Configuration calls never touch the builder's ident. -/
theorem applyConfig_ident {I O : Type} (b : ExpectationBuilder I O)
    (c : Config I O) : (applyConfig b c).ident = b.ident := by
  cases c <;> rfl

/-- A chain of configuration calls never touches the builder's ident. -/
theorem applyConfigs_ident {I O : Type} (b : ExpectationBuilder I O)
    (cs : List (Config I O)) : (applyConfigs b cs).ident = b.ident := by
  induction cs generalizing b with
  | nil => rfl
  | cons c cs ih =>
    rw [applyConfigs, ih (applyConfig b c), applyConfig_ident]

/-- C1: for a single-use computation `f` committed via `return_once` under
the identity `(ident, tyIn, tyOut)`, the first `called` with arguments `a1`
returns `f a1`, and every subsequent `called` against that identity fails
with the exhausted error, regardless of the arguments passed (the registry
ends holding the `Expired` strategy at that key). -/
theorem single_use_exactly_once {Ty : Type} [DecidableEq Ty] {El : Ty → Type}
    (env : (t : Ty) → DefaultSupport (El t)) (s : Expectations Ty El)
    (tyIn tyOut : Ty) (ident : String)
    (f : El tyIn → Except String (El tyOut)) (a1 : El tyIn)
    (rest : List (El tyIn)) :
    (ExpectationBuilder.drop tyIn tyOut
        ((s.expect tyIn tyOut ident).return_once f) s).calledN env tyIn tyOut
        ident (a1 :: rest) =
      (f a1 :: rest.map fun _ => Except.error exhaustedMsg,
        s.register tyIn tyOut ident (Expectation.new .Expired)) := by
  simp [ExpectationBuilder.drop, Expectations.expect, ExpectationBuilder.new,
    ExpectationBuilder.return_once, Expectations.calledN, called_register,
    Rfunc.call_mut, calledN_register_expired]

/-- C2: `call_mut` on a `Once` strategy swaps the state to `Expired` before
invoking the held closure, so the resulting state is `Expired` whatever the
closure's result — in particular also when `f args` is an error (a closure
panic): the slot is marked consumed even if `f` itself fails. -/
theorem single_use_swap_marks_consumed {I O : Type} (env : DefaultSupport O)
    (f : I → Except String O) (args : I) :
    (Rfunc.Once f).call_mut env args = (f args, Rfunc.Expired) :=
  rfl

/-- C3: for a reusable computation `f` committed via `returning` under the
identity `(ident, tyIn, tyOut)`, calling `called` with arguments `a1..aN`
returns `f a1, ..., f aN` in order for any N ≥ 0, and the registry is
unchanged after every call: the slot stays `Mut f` and never transitions. -/
theorem reusable_determinism {Ty : Type} [DecidableEq Ty] {El : Ty → Type}
    (env : (t : Ty) → DefaultSupport (El t)) (s : Expectations Ty El)
    (tyIn tyOut : Ty) (ident : String)
    (f : El tyIn → Except String (El tyOut)) (as : List (El tyIn)) :
    (ExpectationBuilder.drop tyIn tyOut
        ((s.expect tyIn tyOut ident).returning f) s).calledN env tyIn tyOut
        ident as =
      (as.map f,
        ExpectationBuilder.drop tyIn tyOut
          ((s.expect tyIn tyOut ident).returning f) s) := by
  simp [ExpectationBuilder.drop, Expectations.expect, ExpectationBuilder.new,
    ExpectationBuilder.returning, calledN_register_mut]

/-- C4: `called` with an identity whose key is absent from the store fails
with the "no matching expectation found" error and leaves the registry
unchanged. -/
theorem unregistered_lookup {Ty : Type} [DecidableEq Ty] {El : Ty → Type}
    (env : (t : Ty) → DefaultSupport (El t)) (s : Expectations Ty El)
    (tyIn tyOut : Ty) (ident : String) (args : El tyIn)
    (h : s.store (Key.new tyIn tyOut ident) = none) :
    s.called env tyIn tyOut ident args = (.error noMatchMsg, s) := by
  simp [Expectations.called, h]

/-- Witness for C4: the empty registry has no slot for `("foo", Int, Int)`,
and `called` there fails with the no-match error. -/
theorem unregistered_lookup_witness :
    (Expectations.default Ty0 El0).store (Key.new .int .int "foo") = none ∧
      (Expectations.default Ty0 El0).called env0 .int .int "foo"
          ((3 : Int) : El0 .int) =
        (.error noMatchMsg, Expectations.default Ty0 El0) :=
  ⟨rfl, unregistered_lookup env0 (Expectations.default Ty0 El0) .int .int
    "foo" ((3 : Int) : El0 .int) rfl⟩

/-- C5: producing from the `Default` strategy yields `return_default` of the
environment's capability and stays `Default`; with `nightly` and `O: Default`
that is the output type's default value, and otherwise it is always an error
(the stable-feature message or the nightly no-`Default` message), never a
value. -/
theorem default_strategy_two_tier {I O : Type} (env : DefaultSupport O)
    (args : I) :
    (Rfunc.Default : Rfunc I O).call_mut env args =
        (return_default env, .Default) ∧
      (∀ d : O, return_default (.nightlyDefault d : DefaultSupport O) =
        .ok d) ∧
      return_default (.stable : DefaultSupport O) =
        .error stableDefaultMsg ∧
      return_default (.nightlyNoDefault : DefaultSupport O) =
        .error nightlyNoDefaultMsg :=
  ⟨rfl, fun _ => rfl, rfl, rfl⟩

/-- C6: registering a second expectation under the same
`(ident, tyIn, tyOut)` replaces the prior slot: the resulting registry equals
the one in which only the second registration happened, so only the second
strategy is observable by later `called` invocations and the first is
unreachable. -/
theorem registration_overwrite {Ty : Type} [DecidableEq Ty] {El : Ty → Type}
    (s : Expectations Ty El) (tyIn tyOut : Ty) (ident : String)
    (e1 e2 : Expectation (El tyIn) (El tyOut)) :
    (s.register tyIn tyOut ident e1).register tyIn tyOut ident e2 =
      s.register tyIn tyOut ident e2 :=
  register_twice s tyIn tyOut ident e1 e2

/-- C7: `Key.new` is a pure, total, deterministic function of
`(ident, tyIn, tyOut)` — equal triples give equal keys — and consequently a
registration is always found by a lookup with the matching triple: no false
negatives. -/
theorem identity_pure_no_false_negatives {Ty : Type} [DecidableEq Ty]
    {El : Ty → Type} (s : Expectations Ty El) (tyIn tyOut : Ty)
    (ident : String) (e : Expectation (El tyIn) (El tyOut)) :
    Key.new tyIn tyOut ident = Key.new tyIn tyOut ident ∧
      (s.register tyIn tyOut ident e).store (Key.new tyIn tyOut ident) =
        some ⟨tyIn, tyOut, e⟩ :=
  ⟨rfl, register_store_self s tyIn tyOut ident e⟩

/-- C8: builder configuration is last-writer-wins: after any chained
sequence of `returning`/`return_once` calls ending with the call `c`,
committing the builder registers exactly the strategy `c` installs, under the
builder's original ident. -/
theorem builder_last_writer_wins {Ty : Type} [DecidableEq Ty]
    {El : Ty → Type} (s : Expectations Ty El) (tyIn tyOut : Ty)
    (ident : String) (cs : List (Config (El tyIn) (El tyOut)))
    (c : Config (El tyIn) (El tyOut)) :
    ExpectationBuilder.drop tyIn tyOut
        (applyConfigs (s.expect tyIn tyOut ident) (cs ++ [c])) s =
      s.register tyIn tyOut ident (Expectation.new (configRfunc c)) := by
  rw [ExpectationBuilder.drop, applyConfigs_snoc, applyConfig_rfunc,
    applyConfig_ident, applyConfigs_ident]
  rfl

/-- C10: a builder obtained from `expect` and dropped with no configuration
call still registers a slot holding the `Default` strategy, and that
registration replaces any previously registered slot for the same identity:
the earlier behavior `e1` becomes unreachable. -/
theorem unconfigured_builder_registers_default {Ty : Type} [DecidableEq Ty]
    {El : Ty → Type} (s : Expectations Ty El) (tyIn tyOut : Ty)
    (ident : String) (e1 : Expectation (El tyIn) (El tyOut)) :
    ExpectationBuilder.drop tyIn tyOut
        ((s.register tyIn tyOut ident e1).expect tyIn tyOut ident)
        (s.register tyIn tyOut ident e1) =
      s.register tyIn tyOut ident (Expectation.new .Default) := by
  rw [ExpectationBuilder.drop, Expectations.expect, ExpectationBuilder.new]
  exact register_twice s tyIn tyOut ident e1 (Expectation.new .Default)

end Mockall
